import Mathlib

/-!
# Verification of the sludge stream relay core

Shallow embedding of the sludge repository's request dispatcher
(`src/requestHandler.ts`) and segment ingestion pipeline
(`UploadFormHandler.process`), together with theorems settling the frozen
claims about the natural-language specification.

External collaborators (the metadata store, the UUID generator/validator,
the multipart parser of the Deno standard library and the `URL` builtin)
are injected into the handlers through provider interfaces in the source;
the embedding mirrors that by parametrising the handlers over an
environment of provider functions.  Asynchronous calls whose results the
source awaits are modelled as `Except`-returning functions; a call whose
promise the source discards is modelled by discarding the function's
result.
-/

namespace Sludge

/-- Spec-level classification of failures (spec section 7).  The source
throws plain `Error(message)` values; the dispatcher only ever reads the
message, so the `kind` tag is carried along purely for stating claims
about error taxonomy and is never inspected by the embedded handlers. -/
inductive ErrKind where
  | invalidPath
  | invalidRequest
  | unknownStream
  | upstreamWriteFailure
  | other
  deriving DecidableEq, Repr

/-- A thrown JavaScript `Error`: the dispatcher observes only `message`. -/
structure Err where
  kind : ErrKind
  message : String
  deriving DecidableEq, Repr

/-- `interface UserStreamData` from `src/requestHandler.ts` lines 3-8:
fields `admin`, `download`, `hub`, in this declaration order. -/
structure UserStreamData where
  admin : String
  download : String
  hub : String
  deriving DecidableEq, Repr

/-- `interface Segment` from `src/requestHandler.ts` lines 10-15. -/
structure Segment where
  segmentID : String
  streamPublicID : String
  segmentURL : String
  deriving DecidableEq, Repr

/-- The top-level key names of `JSON.stringify` applied to a
`UserStreamData` object: exactly the interface's declared fields, in
declaration order (`admin`, `download`, `hub`). -/
def streamDataKeys : List String := ["admin", "download", "hub"]

/-- The incoming HTTP request as the dispatcher observes it:
`method`, `url`, `contentLength` (`number | null` in Deno, modelled as
`Option Nat`) and the raw body bytes (modelled as a `String`;
`encodeText`/`decodeText` are UTF-8 codecs and become the identity). -/
structure ServerRequest where
  method : String
  url : String
  contentLength : Option Nat
  body : String
  deriving DecidableEq, Repr

/-- Response payloads produced by the dispatcher.  A JSON-bearing body
records the value that `JSON.stringify` serialises. -/
inductive Body where
  | empty
  | text (s : String)
  | jsonStream (d : UserStreamData)
  | jsonHubs (hs : List String)
  | jsonSegments (ss : List Segment)
  deriving DecidableEq, Repr

/-- The Deno `Response` record: status, optional body, headers.  Headers
are a list of (name, value) pairs; `Headers.append` is list append and
`Headers.set` on a fresh `Headers` object inserts the pair. -/
structure HttpResponse where
  status : Nat
  body : Body
  headers : List (String × String)
  deriving DecidableEq, Repr

/-- The injected providers of `RequestHandler` (interfaces
`RequestsActionsProvider`, `RequestsDataProvider`, `RequestsUUIDProvider`
of `src/requestHandler.ts`), plus the JavaScript `URL` constructor used
by `put` (it throws on an unparsable string, hence `Except`).
Promise-returning provider calls the source awaits are `Except`-valued
functions here. -/
structure Env where
  createStream : Except Err UserStreamData
  fetchStream : String → Except Err UserStreamData
  processUploadFormData : ServerRequest → String → Except Err Unit
  connectStreamToHub : String → String → Except Err Unit
  disconnectStreamFromHub : String → String → Except Err Unit
  connectedHubs : String → Except Err (List String)
  getSegmentList : String → Option String → Except Err (List Segment)
  validateUUID : String → Bool
  parseURL : String → Except Err String

/-- Splitting a character list at every occurrence of `sep`, accumulating
the current (reversed) chunk. -/
def splitCharAux (sep : Char) : List Char → List Char → List (List Char)
  | [], acc => [acc.reverse]
  | c :: cs, acc =>
      if c = sep then acc.reverse :: splitCharAux sep cs []
      else splitCharAux sep cs (c :: acc)

/-- JavaScript `string.split(sep)` for a single-character separator:
`"".split("/") = [""]`, `"/a".split("/") = ["", "a"]`, adjacent and
trailing separators produce empty chunks. -/
def jsSplit (s : String) (sep : Char) : List String :=
  (splitCharAux sep s.data []).map String.mk

/-- JavaScript array indexing `path[i]` yields `undefined` past the end;
`validateUUID(undefined)` is false for the identifier validator (a
fixed-length, fixed-alphabet check on a string cannot accept the
`undefined` value). -/
def optValid (v : String → Bool) : Option String → Bool
  | none => false
  | some s => v s

/-- The uniform catch-branch of every handler: status 404, body =
`encodeText(e.message)`, no headers. -/
def err404 (e : Err) : HttpResponse :=
  { status := 404, body := .text e.message, headers := [] }

/-- `throw Error("Invalid path")` in `post`, `put`, `delete`, `get`. -/
def invalidPathErr : Err := ⟨.invalidPath, "Invalid path"⟩

/-- `throw Error("No data")` in `put` and `delete` when
`!req.contentLength`. -/
def noDataErr : Err := ⟨.invalidRequest, "No data"⟩

/-- JS falsiness of `req.contentLength : number | null`. -/
def lengthFalsy : Option Nat → Bool
  | none => true
  | some n => n == 0

/-- `RequestHandler.post` (`src/requestHandler.ts` lines 63-106):
`/stream` creates a stream (200, JSON of the new `UserStreamData`,
`content-type: application/json`); `/<admin id>` validates the
identifier, delegates the upload and answers `200 Success\n`; any
thrown error becomes 404 with the error's message. -/
def post (env : Env) (req : ServerRequest) : HttpResponse :=
  let path := jsSplit req.url '/'
  if path[1]? = some "stream" then
    match env.createStream with
    | .ok d =>
        { status := 200, body := .jsonStream d
          headers := [("content-type", "application/json")] }
    | .error e => err404 e
  else if optValid env.validateUUID path[1]? = false then
    err404 invalidPathErr
  else
    match env.processUploadFormData req ((path[1]?).getD "") with
    | .ok _ => { status := 200, body := .text "Success\n", headers := [] }
    | .error e => err404 e

/-- `RequestHandler.put` (`src/requestHandler.ts` lines 113-147):
`/<admin id>/admin` registers a hub.  The body is decoded and parsed as a
URL (a throw here is caught), then `connectStreamToHub` is invoked
WITHOUT `await` — its eventual result is discarded and the handler
answers 200 regardless. -/
def put (env : Env) (req : ServerRequest) : HttpResponse :=
  let path := jsSplit req.url '/'
  if optValid env.validateUUID path[1]? = false ∨ path[2]? ≠ some "admin" then
    err404 invalidPathErr
  else if lengthFalsy req.contentLength then
    err404 noDataErr
  else
    match env.parseURL req.body with
    | .error e => err404 e
    | .ok hubURL =>
        let _ := env.connectStreamToHub hubURL ((path[1]?).getD "")
        { status := 200, body := .empty, headers := [] }

/-- `RequestHandler.delete` (`src/requestHandler.ts` lines 154-189):
`/<admin id>/admin` removes a hub; `disconnectStreamFromHub` IS awaited,
so its failure is caught and becomes a 404. -/
def delete (env : Env) (req : ServerRequest) : HttpResponse :=
  let path := jsSplit req.url '/'
  if optValid env.validateUUID path[1]? = false ∨ path[2]? ≠ some "admin" then
    err404 invalidPathErr
  else if lengthFalsy req.contentLength then
    err404 noDataErr
  else
    match env.disconnectStreamFromHub req.body ((path[1]?).getD "") with
    | .ok _ => { status := 200, body := .empty, headers := [] }
    | .error e => err404 e

/-- `RequestHandler.get` (`src/requestHandler.ts` lines 202-258):
validates the first path segment, then switches on the second
(`hubs` / `admin` / default playlist).  In the default branch the second
segment is passed as cursor iff `validateUUID` accepts it, otherwise
`undefined`. -/
def get (env : Env) (req : ServerRequest) : HttpResponse :=
  let path := jsSplit req.url '/'
  if optValid env.validateUUID path[1]? = false then
    err404 invalidPathErr
  else
    let jsonHeaders := [("content-type", "application/json")]
    if path[2]? = some "hubs" then
      match env.connectedHubs ((path[1]?).getD "") with
      | .ok hs => { status := 200, body := .jsonHubs hs, headers := jsonHeaders }
      | .error e => err404 e
    else if path[2]? = some "admin" then
      match env.fetchStream ((path[1]?).getD "") with
      | .ok d => { status := 200, body := .jsonStream d, headers := jsonHeaders }
      | .error e => err404 e
    else
      match env.getSegmentList ((path[1]?).getD "")
          (if optValid env.validateUUID path[2]? then path[2]? else none) with
      | .ok ss => { status := 200, body := .jsonSegments ss, headers := jsonHeaders }
      | .error e => err404 e

/-- `RequestHandler.selectMethod` (`src/requestHandler.ts` lines
289-314): method dispatch; `OPTIONS` short-circuits to a bare 200; any
other method gets a fixed 400. -/
def selectMethod (env : Env) (req : ServerRequest) : HttpResponse :=
  if req.method = "GET" then get env req
  else if req.method = "POST" then post env req
  else if req.method = "PUT" then put env req
  else if req.method = "DELETE" then delete env req
  else if req.method = "OPTIONS" then { status := 200, body := .empty, headers := [] }
  else { status := 400, body := .text "This is not a valid request.", headers := [] }

/-- The three CORS header pairs appended by `setCORS`
(`src/requestHandler.ts` lines 262-279), in append order.  Note the
singular header name `access-control-allow-method` with value `GET`. -/
def corsHeaders : List (String × String) :=
  [ ("access-control-allow-origin", "*"),
    ("access-control-allow-method", "GET"),
    ("access-control-allow-headers",
      "Origin, X-Requested-With, Content-Type, Accept, Range") ]

/-- `RequestHandler.setCORS`: creates the headers object if absent and
appends the three CORS headers. -/
def setCORS (res : HttpResponse) : HttpResponse :=
  { res with headers := res.headers ++ corsHeaders }

/-- `RequestHandler.handle` (`src/requestHandler.ts` lines 316-319):
`req.respond(this.setCORS(await this.selectMethod(req)))`. -/
def handle (env : Env) (req : ServerRequest) : HttpResponse :=
  setCORS (selectMethod env req)

/-!
## Segment ingestion pipeline (`UploadFormHandler.process`)

The upload handler's collaborators (`UploadCoreProvider`,
`UploadDataProvider`, `UploadRandomProvider`) and the Deno standard
library's `MultipartReader.readForm` are injected/external; they are
modelled as environment functions.  Side effects (file write, metadata
registration, error logging) are recorded in an effect trace.
-/

/-- A `FormFile` of the Deno std multipart module, restricted to the one
field the source reads: `content?: Uint8Array`.  A typed array is truthy
in JavaScript whenever present, so `!formFile.content` holds exactly when
`content` is `undefined`, i.e. `none` here. -/
structure FormFile where
  content : Option String
  deriving DecidableEq, Repr

/-- Result of `MultipartFormData.file(key)`:
`FormFile | FormFile[] | undefined`. -/
inductive FormFileField where
  | missing
  | single (f : FormFile)
  | multiple (fs : List FormFile)
  deriving DecidableEq, Repr

/-- A parsed multipart form, observed only through `.file(key)`. -/
def FormData := String → FormFileField

/-- Side effects `process` performs, in program order. -/
inductive Effect where
  | resolveAdmin (streamAdminID : String)
  | readFormEffect (boundary : String)
  | fileWrite (path : String) (content : String)
  | registerSegment (segmentID streamPublicID segmentURL : String)
  | logError (msg : String)
  deriving DecidableEq, Repr

/-- `contentType.substr(contentType.indexOf("=") + 1)` on the character
list: everything after the first `=`, or the whole string when there is
no `=` (since `indexOf` returns `-1` and `substr(0)` is the whole
string). -/
def afterFirstEq : List Char → Option (List Char)
  | [] => none
  | c :: cs => if c = '=' then some cs else afterFirstEq cs

/-- The boundary the source passes to `MultipartReader`. -/
def extractBoundary (contentType : String) : String :=
  match afterFirstEq contentType.data with
  | some cs => String.mk cs
  | none => contentType

/-- `join` of the Deno std path module on two relative components. -/
def joinPath (a b : String) : String := a ++ "/" ++ b

/-- `new URL(rel, base)` for a base URL ending in `/`: appends the
relative path to the base. -/
def resolveURL (rel base : String) : String := base ++ rel

/-- The collaborators of `UploadFormHandler`: configuration
(`rootDir`, `fileURL`), the metadata store (`UploadDataProvider`), the
random provider (`uuid`, modelled as the concrete fresh identifier the
call returns) and the Deno std multipart parser (`readForm`, fed the
boundary and the raw body; it throws on an unparsable body, hence
`Except`). -/
structure UploadEnv where
  rootDir : String
  fileURL : String
  getStreamPublicIDFromStreamAdminID : String → Except Err String
  addSegmentURL : String → String → String → Except Err Unit
  uuid : String
  readForm : String → String → Except Err FormData

/-- `Error("Missing content type header\n")` thrown by `process`. -/
def missingContentTypeErr : Err :=
  ⟨.invalidRequest, "Missing content type header\n"⟩

/-- `UploadFormHandler.process`: (1) reject a missing content-type
header; (2) resolve `streamAdminID` to the stream's public ID; (3) parse
the body as multipart form data with the boundary extracted from the
content-type header; (4) read the single file field `audio`, returning
successfully with no further effect when it is absent, an array, or has
no content; (5) write the payload at
`rootDir/audio/<publicID>/<segmentID>.opus`; (6) register the segment
URL, swallowing (and logging) any registration failure.  Returns the
outcome the caller observes together with the trace of side effects. -/
def process (env : UploadEnv) (contentType : Option String) (body : String)
    (streamAdminID : String) : Except Err Unit × List Effect :=
  match contentType with
  | none => (.error missingContentTypeErr, [])
  | some ct =>
    match env.getStreamPublicIDFromStreamAdminID streamAdminID with
    | .error e => (.error e, [.resolveAdmin streamAdminID])
    | .ok streamPublicID =>
      let boundary := extractBoundary ct
      match env.readForm boundary body with
      | .error e =>
          (.error e, [.resolveAdmin streamAdminID, .readFormEffect boundary])
      | .ok data =>
        let prefixTrace := [Effect.resolveAdmin streamAdminID,
                            Effect.readFormEffect boundary]
        match data "audio" with
        | .missing => (.ok (), prefixTrace)
        | .multiple _ => (.ok (), prefixTrace)
        | .single f =>
          match f.content with
          | none => (.ok (), prefixTrace)
          | some content =>
            let segmentID := env.uuid
            let fileLocation := joinPath streamPublicID (segmentID ++ ".opus")
            let writePath := joinPath (joinPath env.rootDir "audio") fileLocation
            let segmentURL := resolveURL fileLocation env.fileURL
            match env.addSegmentURL segmentID streamPublicID segmentURL with
            | .ok _ =>
                (.ok (), prefixTrace ++
                  [.fileWrite writePath content,
                   .registerSegment segmentID streamPublicID segmentURL])
            | .error _ =>
                (.ok (), prefixTrace ++
                  [.fileWrite writePath content,
                   .logError ("Failed to create segment entry " ++ segmentID
                     ++ " for " ++ streamPublicID)])

/-!
## Spec-modelled collaborators

The identifier validator and the hub fan-out manager are implemented by
provider code that is not part of the sources under `src/`; they are
modelled from the spec for the claims that need concrete instances.
-/

/-- Modelled from the spec: the Identifier Validator (spec section 4.1)
is provider code absent from `src/`.  "A token is valid iff it has an
externally configured fixed length and every character is drawn from an
externally configured alphabet." -/
def isValidIdentifier (len : Nat) (alphabet : List Char) (token : String) : Bool :=
  token.length == len && token.data.all (alphabet.contains ·)

/-- Hub registrations held by the external metadata store: each known
stream's adminID paired with its registered hub handles. -/
structure HubStore where
  streams : List (String × List String)
  deriving DecidableEq, Repr

/-- The `UnknownStream` failure of the hub fan-out manager
(spec sections 4.3 and 7). -/
def unknownStreamErr : Err := ⟨.unknownStream, "Unknown stream"⟩

/-- Modelled from the spec: `connect` of the Hub Fan-out Manager (spec
section 4.3) is provider code absent from `src/`.  It registers a
callback target under the stream and fails with `UnknownStream` if
`adminID` does not resolve. -/
def connectStreamToHubM (store : HubStore) (hubURL : String)
    (streamAdminID : String) : Except Err HubStore :=
  match store.streams.find? (·.1 = streamAdminID) with
  | some _ => .ok ⟨store.streams.map fun p =>
      if p.1 = streamAdminID then (p.1, p.2 ++ [hubURL]) else p⟩
  | none => .error unknownStreamErr

/-- Modelled from the spec: `disconnect` of the Hub Fan-out Manager
(spec section 4.3).  Removes a registration by handle (removing a
nonexistent handle is a no-op) and fails with `UnknownStream` if
`adminID` does not resolve. -/
def disconnectStreamFromHubM (store : HubStore) (hubID : String)
    (streamAdminID : String) : Except Err HubStore :=
  match store.streams.find? (·.1 = streamAdminID) with
  | some _ => .ok ⟨store.streams.map fun p =>
      if p.1 = streamAdminID then (p.1, p.2.filter (· ≠ hubID)) else p⟩
  | none => .error unknownStreamErr

/-- Modelled from the spec: `list` of the Hub Fan-out Manager (spec
section 4.3).  Returns the registered hub handles and fails with
`UnknownStream` if `adminID` does not resolve. -/
def connectedHubsM (store : HubStore) (streamAdminID : String) :
    Except Err (List String) :=
  match store.streams.find? (·.1 = streamAdminID) with
  | some p => .ok p.2
  | none => .error unknownStreamErr

/-!
## Concrete test fixtures

A concrete environment used by the counterexamples and witnesses: the
identifier validator is instantiated with length 10 over the
`[a-zA-Z0-9_-]` alphabet of the nginx configuration template, and the
hub fan-out manager with an empty store (no stream exists). -/

/-- The identifier alphabet of the deployment templates
(`src/configure.ts`): `a-z`, `A-Z`, `0-9`, `_`, `-`. -/
def testAlphabet : List Char :=
  "abcdefghijklmnopqrstuvwxyzABCDEFGHIJKLMNOPQRSTUVWXYZ0123456789_-".data

/-- A stream record as the provider would return it. -/
def testStreamData : UserStreamData :=
  ⟨"adminaaaaa", "publicaaaa", "hubaaaaaaa"⟩

/-- A store that knows no stream at all. -/
def emptyHubStore : HubStore := ⟨[]⟩

/-- Concrete dispatcher environment: stream creation succeeds with
`testStreamData`, `fetchStream` knows only `adminaaaaa`, uploads succeed,
hub operations run against the empty store (so they all fail with
`UnknownStream`), the playlist is empty, identifiers are 10 characters
over `testAlphabet`, and a string parses as a URL iff it starts with
`https://`. -/
def testEnv : Env where
  createStream := .ok testStreamData
  fetchStream := fun a =>
    if a = "adminaaaaa" then .ok testStreamData else .error unknownStreamErr
  processUploadFormData := fun _ _ => .ok ()
  connectStreamToHub := fun u a =>
    (connectStreamToHubM emptyHubStore u a).map fun _ => ()
  disconnectStreamFromHub := fun h a =>
    (disconnectStreamFromHubM emptyHubStore h a).map fun _ => ()
  connectedHubs := connectedHubsM emptyHubStore
  getSegmentList := fun _ _ => .ok []
  validateUUID := isValidIdentifier 10 testAlphabet
  parseURL := fun s =>
    if s.data.take 8 = "https://".data then .ok s
    else .error ⟨.invalidRequest, "Invalid URL"⟩

/-- `POST /stream`. -/
def postStreamReq : ServerRequest := ⟨"POST", "/stream", none, ""⟩

/-- `GET /adminaaaaa/admin`. -/
def getAdminReq : ServerRequest := ⟨"GET", "/adminaaaaa/admin", none, ""⟩

/-!
## Claims
-/

/-- C1 (counterexample): `POST /stream` on the concrete environment does
answer 200 with the JSON serialisation of the new stream record, but the
serialised object's keys are `admin`, `download`, `hub` — the key
`public` claimed by the spec does not occur (the source interface
`UserStreamData` names the field `download`). -/
theorem c1_counterexample :
    (handle testEnv postStreamReq).status = 200 ∧
    (handle testEnv postStreamReq).body = .jsonStream testStreamData ∧
    "public" ∉ streamDataKeys ∧
    streamDataKeys ≠ ["admin", "public", "hub"] := by
  refine ⟨?_, ?_, by decide, by decide⟩ <;> decide

/-- C1 (amended): every successful `POST /stream` answers 200 with
`content-type: application/json` and a JSON body that is an object with
exactly the keys `admin`, `download`, `hub`; a successful
`GET /{adminID}/admin` returns the same shape. -/
theorem c1_stream_response_shape (env : Env) (req req' : ServerRequest)
    (a : String) (d d' : UserStreamData)
    (hm : req.method = "POST")
    (hu : (jsSplit req.url '/')[1]? = some "stream")
    (hc : env.createStream = .ok d)
    (hm' : req'.method = "GET")
    (ha : (jsSplit req'.url '/')[1]? = some a)
    (hv : env.validateUUID a = true)
    (h2 : (jsSplit req'.url '/')[2]? = some "admin")
    (hf : env.fetchStream a = .ok d') :
    handle env req =
      ⟨200, .jsonStream d, ("content-type", "application/json") :: corsHeaders⟩ ∧
    handle env req' =
      ⟨200, .jsonStream d', ("content-type", "application/json") :: corsHeaders⟩ ∧
    streamDataKeys = ["admin", "download", "hub"] := by
  refine ⟨?_, ?_, rfl⟩
  · simp [handle, selectMethod, hm, post, hu, hc, setCORS]
  · simp [handle, selectMethod, hm', get, ha, optValid, hv, h2, hf, setCORS]

/-- C1 (witness): the amended claim holds at the concrete environment. -/
theorem c1_stream_response_shape_witness :
    handle testEnv postStreamReq =
      ⟨200, .jsonStream testStreamData,
        ("content-type", "application/json") :: corsHeaders⟩ ∧
    handle testEnv getAdminReq =
      ⟨200, .jsonStream testStreamData,
        ("content-type", "application/json") :: corsHeaders⟩ ∧
    streamDataKeys = ["admin", "download", "hub"] :=
  c1_stream_response_shape testEnv postStreamReq getAdminReq "adminaaaaa"
    testStreamData testStreamData rfl (by decide) rfl rfl (by decide)
    (by decide) (by decide) rfl

/-- The guard `!formFile || Array.isArray(formFile) || !formFile.content`
of `process`: the `audio` field is absent, an array of files, or carries
no content. -/
def audioAbsent : FormFileField → Bool
  | .missing => true
  | .multiple _ => true
  | .single f => f.content.isNone

/-- A multipart form whose only field is `audio`, bound to `field`. -/
def testFormData (field : FormFileField) : FormData :=
  fun k => if k = "audio" then field else .missing

/-- A concrete upload environment with the given store-resolution result,
multipart-parse result and registration result. -/
def uploadEnvOf (resolve : Except Err String) (form : Except Err FormData)
    (reg : Except Err Unit) : UploadEnv where
  rootDir := "/var/sludge"
  fileURL := "https://files.example/"
  getStreamPublicIDFromStreamAdminID := fun _ => resolve
  addSegmentURL := fun _ _ _ => reg
  uuid := "segaaaaaaa"
  readForm := fun _ _ => form

/-- The error the store raises when a segment entry cannot be created. -/
def registrationErr : Err := ⟨.upstreamWriteFailure, "segment entry failed"⟩

/-- C3: when metadata registration fails after the audio payload has been
written, `process` still returns success; the trace shows the file write
followed by a log entry, and no segment registration. -/
theorem c3_metadata_failure_swallowed (env : UploadEnv)
    (ct body adminID pid c : String) (d : FormData) (f : FormFile) (e : Err)
    (hres : env.getStreamPublicIDFromStreamAdminID adminID = .ok pid)
    (hform : env.readForm (extractBoundary ct) body = .ok d)
    (haudio : d "audio" = .single f)
    (hc : f.content = some c)
    (hreg : env.addSegmentURL env.uuid pid
      (resolveURL (joinPath pid (env.uuid ++ ".opus")) env.fileURL) = .error e) :
    process env (some ct) body adminID =
      (.ok (),
       [.resolveAdmin adminID, .readFormEffect (extractBoundary ct),
        .fileWrite
          (joinPath (joinPath env.rootDir "audio")
            (joinPath pid (env.uuid ++ ".opus"))) c,
        .logError ("Failed to create segment entry " ++ env.uuid
          ++ " for " ++ pid)]) := by
  simp [process, hres, hform, haudio, hc, hreg]

/-- C3 (witness): concrete failing registration still yields success. -/
theorem c3_metadata_failure_swallowed_witness :
    process
      (uploadEnvOf (.ok "publicaaaa")
        (.ok (testFormData (.single ⟨some "opusbytes"⟩))) (.error registrationErr))
      (some "multipart/form-data; boundary=XYZ") "rawbody" "adminaaaaa" =
      (.ok (),
       [.resolveAdmin "adminaaaaa",
        .readFormEffect (extractBoundary "multipart/form-data; boundary=XYZ"),
        .fileWrite
          (joinPath (joinPath "/var/sludge" "audio")
            (joinPath "publicaaaa" ("segaaaaaaa" ++ ".opus"))) "opusbytes",
        .logError ("Failed to create segment entry " ++ "segaaaaaaa"
          ++ " for " ++ "publicaaaa")]) :=
  c3_metadata_failure_swallowed _ _ _ _ _ _ _ _ _ rfl rfl (by decide) rfl rfl

/-- C4: when the adminID does not resolve, `process` fails with exactly
the store's error before the multipart body is parsed: the trace holds
only the resolution attempt and in particular no form-read effect. -/
theorem c4_resolve_before_parse (env : UploadEnv)
    (ct body adminID : String) (e : Err)
    (h : env.getStreamPublicIDFromStreamAdminID adminID = .error e) :
    process env (some ct) body adminID = (.error e, [.resolveAdmin adminID]) ∧
    ∀ b, Effect.readFormEffect b ∉ (process env (some ct) body adminID).2 := by
  have hp : process env (some ct) body adminID =
      (.error e, [.resolveAdmin adminID]) := by
    simp [process, h]
  refine ⟨hp, fun b => ?_⟩
  rw [hp]
  simp

/-- C4 (witness): concrete unknown admin fails with only the resolution
attempt in the trace. -/
theorem c4_resolve_before_parse_witness :
    process
      (uploadEnvOf (.error unknownStreamErr)
        (.ok (testFormData (.single ⟨some "opusbytes"⟩))) (.ok ()))
      (some "multipart/form-data; boundary=XYZ") "rawbody" "aaaaaaaaaa" =
      (.error unknownStreamErr, [.resolveAdmin "aaaaaaaaaa"]) ∧
    Effect.readFormEffect
        (extractBoundary "multipart/form-data; boundary=XYZ") ∉
      (process
        (uploadEnvOf (.error unknownStreamErr)
          (.ok (testFormData (.single ⟨some "opusbytes"⟩))) (.ok ()))
        (some "multipart/form-data; boundary=XYZ") "rawbody" "aaaaaaaaaa").2 := by
  have h := c4_resolve_before_parse
    (uploadEnvOf (.error unknownStreamErr)
      (.ok (testFormData (.single ⟨some "opusbytes"⟩))) (.ok ()))
    "multipart/form-data; boundary=XYZ" "rawbody" "aaaaaaaaaa"
    unknownStreamErr rfl
  exact ⟨h.1, h.2 _⟩

/-- C5: with a single non-empty `audio` file field and a resolving
adminID, `process` succeeds and the trace holds exactly one file write
and one registration, both at `<publicID>/<segmentID>.opus`; with an
absent, multiple or contentless `audio` field it succeeds with neither a
write nor a registration. -/
theorem c5_ingest_segments (env₁ env₂ : UploadEnv)
    (ct₁ body₁ adminID₁ pid₁ c : String) (d₁ : FormData) (f : FormFile)
    (ct₂ body₂ adminID₂ pid₂ : String) (d₂ : FormData)
    (hres₁ : env₁.getStreamPublicIDFromStreamAdminID adminID₁ = .ok pid₁)
    (hform₁ : env₁.readForm (extractBoundary ct₁) body₁ = .ok d₁)
    (haudio₁ : d₁ "audio" = .single f)
    (hc : f.content = some c)
    (hreg : env₁.addSegmentURL env₁.uuid pid₁
      (resolveURL (joinPath pid₁ (env₁.uuid ++ ".opus")) env₁.fileURL) = .ok ())
    (hres₂ : env₂.getStreamPublicIDFromStreamAdminID adminID₂ = .ok pid₂)
    (hform₂ : env₂.readForm (extractBoundary ct₂) body₂ = .ok d₂)
    (habs : audioAbsent (d₂ "audio") = true) :
    process env₁ (some ct₁) body₁ adminID₁ =
      (.ok (),
       [.resolveAdmin adminID₁, .readFormEffect (extractBoundary ct₁),
        .fileWrite
          (joinPath (joinPath env₁.rootDir "audio")
            (joinPath pid₁ (env₁.uuid ++ ".opus"))) c,
        .registerSegment env₁.uuid pid₁
          (resolveURL (joinPath pid₁ (env₁.uuid ++ ".opus")) env₁.fileURL)]) ∧
    process env₂ (some ct₂) body₂ adminID₂ =
      (.ok (),
       [.resolveAdmin adminID₂, .readFormEffect (extractBoundary ct₂)]) := by
  constructor
  · simp [process, hres₁, hform₁, haudio₁, hc, hreg]
  · cases hfield : d₂ "audio" with
    | missing => simp [process, hres₂, hform₂, hfield]
    | multiple fs => simp [process, hres₂, hform₂, hfield]
    | single f₂ =>
        rw [hfield] at habs
        cases hcon : f₂.content with
        | none => simp [process, hres₂, hform₂, hfield, hcon]
        | some c₂ => rw [audioAbsent, hcon] at habs; cases habs

/-- C5 (witness): one concrete upload with a non-empty `audio` part and
one without. -/
theorem c5_ingest_segments_witness :
    process
      (uploadEnvOf (.ok "publicaaaa")
        (.ok (testFormData (.single ⟨some "opusbytes"⟩))) (.ok ()))
      (some "multipart/form-data; boundary=XYZ") "rawbody" "adminaaaaa" =
      (.ok (),
       [.resolveAdmin "adminaaaaa",
        .readFormEffect (extractBoundary "multipart/form-data; boundary=XYZ"),
        .fileWrite
          (joinPath (joinPath "/var/sludge" "audio")
            (joinPath "publicaaaa" ("segaaaaaaa" ++ ".opus"))) "opusbytes",
        .registerSegment "segaaaaaaa" "publicaaaa"
          (resolveURL (joinPath "publicaaaa" ("segaaaaaaa" ++ ".opus"))
            "https://files.example/")]) ∧
    process
      (uploadEnvOf (.ok "publicaaaa") (.ok (testFormData .missing)) (.ok ()))
      (some "multipart/form-data; boundary=XYZ") "rawbody" "adminaaaaa" =
      (.ok (),
       [.resolveAdmin "adminaaaaa",
        .readFormEffect (extractBoundary "multipart/form-data; boundary=XYZ")]) :=
  c5_ingest_segments
    (uploadEnvOf (.ok "publicaaaa")
      (.ok (testFormData (.single ⟨some "opusbytes"⟩))) (.ok ()))
    (uploadEnvOf (.ok "publicaaaa") (.ok (testFormData .missing)) (.ok ()))
    "multipart/form-data; boundary=XYZ" "rawbody" "adminaaaaa" "publicaaaa"
    "opusbytes" (testFormData (.single ⟨some "opusbytes"⟩)) ⟨some "opusbytes"⟩
    "multipart/form-data; boundary=XYZ" "rawbody" "adminaaaaa" "publicaaaa"
    (testFormData .missing)
    rfl rfl (by decide) rfl rfl rfl rfl (by decide)

/-- C6: a missing content-type header makes `process` fail immediately
with the `InvalidRequest`-kind error `Missing content type header`, with
no side effect at all; a content-type whose extracted boundary does not
let the multipart parser read the body makes `process` fail with the
parser's error, after the resolution and the failed parse attempt. -/
theorem c6_invalid_content_type (env : UploadEnv)
    (ct body body' adminID pid : String) (e : Err)
    (hres : env.getStreamPublicIDFromStreamAdminID adminID = .ok pid)
    (hform : env.readForm (extractBoundary ct) body = .error e) :
    process env none body' adminID = (.error missingContentTypeErr, []) ∧
    missingContentTypeErr.kind = .invalidRequest ∧
    process env (some ct) body adminID =
      (.error e,
       [.resolveAdmin adminID, .readFormEffect (extractBoundary ct)]) := by
  refine ⟨rfl, rfl, ?_⟩
  simp [process, hres, hform]

/-- C6 (witness): a concrete unparsable body fails; a concrete missing
header fails with the fixed message. -/
theorem c6_invalid_content_type_witness :
    process
      (uploadEnvOf (.ok "publicaaaa")
        (.error ⟨.invalidRequest, "multipart: boundary not found"⟩) (.ok ()))
      none "rawbody" "adminaaaaa" = (.error missingContentTypeErr, []) ∧
    missingContentTypeErr.kind = .invalidRequest ∧
    process
      (uploadEnvOf (.ok "publicaaaa")
        (.error ⟨.invalidRequest, "multipart: boundary not found"⟩) (.ok ()))
      (some "text/plain") "rawbody" "adminaaaaa" =
      (.error ⟨.invalidRequest, "multipart: boundary not found"⟩,
       [.resolveAdmin "adminaaaaa", .readFormEffect (extractBoundary "text/plain")]) :=
  c6_invalid_content_type
    (uploadEnvOf (.ok "publicaaaa")
      (.error ⟨.invalidRequest, "multipart: boundary not found"⟩) (.ok ()))
    "text/plain" "rawbody" "rawbody" "adminaaaaa" "publicaaaa"
    ⟨.invalidRequest, "multipart: boundary not found"⟩ rfl rfl

/-- `PUT /aaaaaaaaaa/admin` with a hub URL body for a valid-format admin
token that no stream owns. -/
def putUnknownReq : ServerRequest :=
  ⟨"PUT", "/aaaaaaaaaa/admin", some 20, "https://hub.example/"⟩

/-- `DELETE /aaaaaaaaaa/admin` with a hub handle body. -/
def deleteUnknownReq : ServerRequest :=
  ⟨"DELETE", "/aaaaaaaaaa/admin", some 4, "hub1"⟩

/-- `GET /aaaaaaaaaa/hubs`. -/
def hubsUnknownReq : ServerRequest := ⟨"GET", "/aaaaaaaaaa/hubs", none, ""⟩

/-- C2 (counterexample): against the empty store, the connect operation
itself fails with `UnknownStream`, yet the `PUT /{adminID}/admin` request
is answered 200 with an empty body — not 404 with the error message —
because `put` dispatches `connectStreamToHub` without awaiting it. -/
theorem c2_counterexample :
    testEnv.connectStreamToHub "https://hub.example/" "aaaaaaaaaa" =
      .error unknownStreamErr ∧
    handle testEnv putUnknownReq = ⟨200, .empty, corsHeaders⟩ ∧
    (handle testEnv putUnknownReq).status ≠ 404 := by
  refine ⟨rfl, by decide, by decide⟩

/-- C2 (amended): connect, disconnect and list all fail with
`UnknownStream` when the adminID resolves to no stream; a
`DELETE /{adminID}/admin` and a `GET /{adminID}/hubs` whose operation
fails are answered 404 with the error's message as body; but a
`PUT /{adminID}/admin` with a well-formed body is answered 200 with an
empty body regardless of the connect operation's outcome, because its
promise is never awaited. -/
theorem c2_unknown_stream_behaviour
    (store : HubStore) (adminID hubURL hubID : String)
    (hs : store.streams.find? (·.1 = adminID) = none)
    (env : Env) (reqD reqG reqP : ServerRequest) (a u : String) (e : Err)
    (hmD : reqD.method = "DELETE")
    (haD : (jsSplit reqD.url '/')[1]? = some a)
    (hv : env.validateUUID a = true)
    (h2D : (jsSplit reqD.url '/')[2]? = some "admin")
    (hlD : lengthFalsy reqD.contentLength = false)
    (hdisc : env.disconnectStreamFromHub reqD.body a = .error e)
    (hmG : reqG.method = "GET")
    (haG : (jsSplit reqG.url '/')[1]? = some a)
    (h2G : (jsSplit reqG.url '/')[2]? = some "hubs")
    (hhubs : env.connectedHubs a = .error e)
    (hmP : reqP.method = "PUT")
    (haP : (jsSplit reqP.url '/')[1]? = some a)
    (h2P : (jsSplit reqP.url '/')[2]? = some "admin")
    (hlP : lengthFalsy reqP.contentLength = false)
    (hurl : env.parseURL reqP.body = .ok u) :
    (connectStreamToHubM store hubURL adminID = .error unknownStreamErr ∧
     disconnectStreamFromHubM store hubID adminID = .error unknownStreamErr ∧
     connectedHubsM store adminID = .error unknownStreamErr) ∧
    selectMethod env reqD = err404 e ∧
    selectMethod env reqG = err404 e ∧
    selectMethod env reqP = ⟨200, .empty, []⟩ := by
  refine ⟨⟨?_, ?_, ?_⟩, ?_, ?_, ?_⟩
  · simp [connectStreamToHubM, hs]
  · simp [disconnectStreamFromHubM, hs]
  · simp [connectedHubsM, hs]
  · simp [selectMethod, hmD, delete, haD, optValid, hv, h2D, hlD, hdisc]
  · simp [selectMethod, hmG, get, haG, optValid, hv, h2G, hhubs]
  · simp [selectMethod, hmP, put, haP, optValid, hv, h2P, hlP, hurl]

/-- C2 (witness): the amended behaviour at the empty store with the
concrete requests. -/
theorem c2_unknown_stream_behaviour_witness :
    (connectStreamToHubM emptyHubStore "https://hub.example/" "aaaaaaaaaa" =
       .error unknownStreamErr ∧
     disconnectStreamFromHubM emptyHubStore "hub1" "aaaaaaaaaa" =
       .error unknownStreamErr ∧
     connectedHubsM emptyHubStore "aaaaaaaaaa" = .error unknownStreamErr) ∧
    selectMethod testEnv deleteUnknownReq = err404 unknownStreamErr ∧
    selectMethod testEnv hubsUnknownReq = err404 unknownStreamErr ∧
    selectMethod testEnv putUnknownReq = ⟨200, .empty, []⟩ :=
  c2_unknown_stream_behaviour emptyHubStore "aaaaaaaaaa" "https://hub.example/"
    "hub1" rfl testEnv deleteUnknownReq hubsUnknownReq putUnknownReq
    "aaaaaaaaaa" "https://hub.example/" unknownStreamErr
    rfl (by decide) (by decide) (by decide) rfl rfl
    rfl (by decide) (by decide) rfl
    rfl (by decide) (by decide) rfl rfl

/-- `GET /publicaaaa/zz`: the second segment is not a valid identifier
and not a keyword. -/
def getBadCursorReq : ServerRequest := ⟨"GET", "/publicaaaa/zz", none, ""⟩

/-- `GET /publicaaaa/bbbbbbbbbb`: the second segment is a valid
identifier. -/
def getGoodCursorReq : ServerRequest :=
  ⟨"GET", "/publicaaaa/bbbbbbbbbb", none, ""⟩

/-- C7: in `GET /{publicID}/{x}` with `x` neither `hubs` nor `admin`,
whether `x` is passed to the segment-list query as cursor is decided
solely by the identifier validator: a validated `x` is forwarded, a
rejected `x` turns into a cursorless query, and when that query succeeds
the full playlist is returned with status 200 rather than an error. -/
theorem c7_cursor_validator (env : Env) (req : ServerRequest) (a x : String)
    (hm : req.method = "GET")
    (ha : (jsSplit req.url '/')[1]? = some a)
    (hv : env.validateUUID a = true)
    (hx : (jsSplit req.url '/')[2]? = some x)
    (hx1 : x ≠ "hubs") (hx2 : x ≠ "admin") :
    (env.validateUUID x = true →
      selectMethod env req =
        match env.getSegmentList a (some x) with
        | .ok ss => ⟨200, .jsonSegments ss, [("content-type", "application/json")]⟩
        | .error e => err404 e) ∧
    (env.validateUUID x = false →
      selectMethod env req =
        match env.getSegmentList a none with
        | .ok ss => ⟨200, .jsonSegments ss, [("content-type", "application/json")]⟩
        | .error e => err404 e) ∧
    (env.validateUUID x = false → ∀ ss, env.getSegmentList a none = .ok ss →
      selectMethod env req =
        ⟨200, .jsonSegments ss, [("content-type", "application/json")]⟩) := by
  refine ⟨fun hvx => ?_, fun hvx => ?_, fun hvx ss hss => ?_⟩
  · simp [selectMethod, hm, get, ha, optValid, hv, hx, hx1, hx2, hvx]
  · simp [selectMethod, hm, get, ha, optValid, hv, hx, hx1, hx2, hvx]
  · simp [selectMethod, hm, get, ha, optValid, hv, hx, hx1, hx2, hvx, hss]

/-- C7 (witness): a rejected cursor yields the full (here empty) playlist
with status 200, and a validated cursor is forwarded to the query. -/
theorem c7_cursor_validator_witness :
    selectMethod testEnv getBadCursorReq =
      ⟨200, .jsonSegments [], [("content-type", "application/json")]⟩ ∧
    selectMethod testEnv getGoodCursorReq =
      match testEnv.getSegmentList "publicaaaa" (some "bbbbbbbbbb") with
      | .ok ss => ⟨200, .jsonSegments ss, [("content-type", "application/json")]⟩
      | .error e => err404 e :=
  ⟨(c7_cursor_validator testEnv getBadCursorReq "publicaaaa" "zz" rfl
      (by decide) (by decide) (by decide) (by decide) (by decide)).2.2
      (by decide) [] rfl,
   (c7_cursor_validator testEnv getGoodCursorReq "publicaaaa" "bbbbbbbbbb" rfl
      (by decide) (by decide) (by decide) (by decide) (by decide)).1
      (by decide)⟩

/-- C8: every response — whatever the method, path or operation outcome —
carries the three CORS headers, appended by `setCORS` before `handle`
sends it. -/
theorem c8_cors_all_responses (env : Env) (req : ServerRequest) :
    (handle env req).headers = (selectMethod env req).headers ++ corsHeaders ∧
    ("access-control-allow-origin", "*") ∈ (handle env req).headers ∧
    ("access-control-allow-method", "GET") ∈ (handle env req).headers ∧
    ("access-control-allow-headers",
      "Origin, X-Requested-With, Content-Type, Accept, Range") ∈
      (handle env req).headers := by
  refine ⟨rfl, ?_, ?_, ?_⟩ <;> simp [handle, setCORS, corsHeaders]

/-- A response is either a 200 success or a 404 whose body is the text
of some error message: the only two envelopes the failure boundary
allows. -/
def okOr404 (r : HttpResponse) : Prop :=
  r.status = 200 ∨ (r.status = 404 ∧ ∃ m, r.body = .text m)

/-- Every `err404` satisfies `okOr404`. -/
theorem okOr404_err404 (e : Err) : okOr404 (err404 e) :=
  Or.inr ⟨rfl, e.message, rfl⟩

/-- Case analysis on `post`. -/
theorem post_response_cases (env : Env) (req : ServerRequest) :
    okOr404 (post env req) := by
  simp only [post]
  repeat' split
  all_goals first
  | exact Or.inl rfl
  | exact okOr404_err404 _

/-- Case analysis on `put`. -/
theorem put_response_cases (env : Env) (req : ServerRequest) :
    okOr404 (put env req) := by
  simp only [put]
  repeat' split
  all_goals first
  | exact Or.inl rfl
  | exact okOr404_err404 _

/-- Case analysis on `delete`. -/
theorem delete_response_cases (env : Env) (req : ServerRequest) :
    okOr404 (delete env req) := by
  simp only [delete]
  repeat' split
  all_goals first
  | exact Or.inl rfl
  | exact okOr404_err404 _

/-- Case analysis on `get`. -/
theorem get_response_cases (env : Env) (req : ServerRequest) :
    okOr404 (get env req) := by
  simp only [get]
  repeat' split
  all_goals first
  | exact Or.inl rfl
  | exact okOr404_err404 _

/-- C9: the four method handlers produce only 200 or 404, a 404 body is
always the text of the caught error's message; a `GET` whose first path
segment fails identifier validation is the CORS-decorated 404 with body
`Invalid path`; and an operation error (here: the upload step of `POST`)
surfaces as 404 with exactly that error's message. -/
theorem c9_failure_boundary (env : Env) (req : ServerRequest) (a : String)
    (e : Err) :
    ((req.method = "GET" ∨ req.method = "POST" ∨ req.method = "PUT" ∨
        req.method = "DELETE") →
      (selectMethod env req).status = 200 ∨
        ((selectMethod env req).status = 404 ∧
          ∃ m, (selectMethod env req).body = .text m)) ∧
    (req.method = "GET" →
      optValid env.validateUUID (jsSplit req.url '/')[1]? = false →
      handle env req = setCORS (err404 invalidPathErr) ∧
      setCORS (err404 invalidPathErr) = ⟨404, .text "Invalid path", corsHeaders⟩) ∧
    (req.method = "POST" →
      (jsSplit req.url '/')[1]? = some a →
      a ≠ "stream" →
      env.validateUUID a = true →
      env.processUploadFormData req a = .error e →
      selectMethod env req = err404 e) := by
  refine ⟨fun hm => ?_, fun hm hbad => ?_, fun hm ha hns hv hup => ?_⟩
  · rcases hm with hm | hm | hm | hm
    · have h := get_response_cases env req
      rw [okOr404] at h
      simpa [selectMethod, hm] using h
    · have h := post_response_cases env req
      rw [okOr404] at h
      simpa [selectMethod, hm] using h
    · have h := put_response_cases env req
      rw [okOr404] at h
      simpa [selectMethod, hm] using h
    · have h := delete_response_cases env req
      rw [okOr404] at h
      simpa [selectMethod, hm] using h
  · exact ⟨by simp [handle, selectMethod, hm, get, hbad], rfl⟩
  · simp [selectMethod, hm, post, ha, hns, optValid, hv, hup]

/-- `GET /not-a-valid-id`: the first segment is not a valid identifier. -/
def getInvalidReq : ServerRequest := ⟨"GET", "/not-a-valid-id", none, ""⟩

/-- The error a failing upload step raises. -/
def uploadFailErr : Err := ⟨.invalidRequest, "Missing content type header\n"⟩

/-- An environment whose upload step fails. -/
def uploadFailEnv : Env :=
  { testEnv with processUploadFormData := fun _ _ => .error uploadFailErr }

/-- `POST /aaaaaaaaaa`: a segment upload. -/
def postUploadReq : ServerRequest := ⟨"POST", "/aaaaaaaaaa", some 9, "rawbody"⟩

/-- C9 (witness): the scenario `GET /not-a-valid-id` is a 404 with body
`Invalid path`, and a failing upload surfaces its message in a 404. -/
theorem c9_failure_boundary_witness :
    ((selectMethod testEnv getInvalidReq).status = 200 ∨
      ((selectMethod testEnv getInvalidReq).status = 404 ∧
        ∃ m, (selectMethod testEnv getInvalidReq).body = .text m)) ∧
    handle testEnv getInvalidReq = ⟨404, .text "Invalid path", corsHeaders⟩ ∧
    selectMethod uploadFailEnv postUploadReq = err404 uploadFailErr := by
  have h₁ := c9_failure_boundary testEnv getInvalidReq "not-a-valid-id"
    unknownStreamErr
  have h₂ := c9_failure_boundary uploadFailEnv postUploadReq "aaaaaaaaaa"
    uploadFailErr
  refine ⟨h₁.1 (Or.inl rfl), ?_, ?_⟩
  · have := h₁.2.1 rfl (by decide)
    rw [this.1, this.2]
  · exact h₂.2.2 rfl (by decide) (by decide) (by decide) rfl

/-- Case analysis on `selectMethod`'s own headers: the handlers set
either no header or only `content-type: application/json`. -/
theorem selectMethod_headers_cases (env : Env) (req : ServerRequest) :
    (selectMethod env req).headers = [] ∨
    (selectMethod env req).headers = [("content-type", "application/json")] := by
  simp only [selectMethod, get, post, put, delete, err404]
  repeat' split
  all_goals first
  | exact Or.inl rfl
  | exact Or.inr rfl

/-- C10: on every response — to any method, `OPTIONS` and unrecognized
ones included — the only method-advertising CORS header is the single
singular-named `access-control-allow-method: GET`; no plural
`access-control-allow-methods` header exists. -/
theorem c10_single_method_header (env : Env) (req : ServerRequest) :
    (handle env req).headers.filter
        (fun h => h.1 == "access-control-allow-method") =
      [("access-control-allow-method", "GET")] ∧
    (handle env req).headers.filter
        (fun h => h.1 == "access-control-allow-methods") = [] := by
  have hh : (handle env req).headers =
      (selectMethod env req).headers ++ corsHeaders := rfl
  rcases selectMethod_headers_cases env req with h | h <;>
    rw [hh, h] <;> exact ⟨by decide, by decide⟩

end Sludge
